import Mathlib

/-!
Verification of the "mini SQL simulator" of the SQLQuery-Handbook repository.

The repository is a Streamlit teaching app; the evaluable logic is a set of
small functions that map UI selections to (a) a SQL-looking string and (b) a
pandas operation on a small in-memory table.  This file embeds those
functions shallowly: a pandas DataFrame becomes `Table` (ordered column
names plus ordered rows of name/value pairs), each fallible pandas call
becomes an `Except PyErr` computation, and Python's blanket
`try/except Exception` blocks become an explicit `match` that maps the
error branch to the value the source returns there.

Sources embedded (paths in the repository):
  * pages/02_BasicQuery.py      - create_query_result
  * pages/07_AggregateQuery.py  - generate_aggregate_query,
        calculate_aggregate_result, generate_group_by_query,
        calculate_group_by_result, calculate_window_result
  * pages/SQLQueryEditor.py     - QueryExecutor.execute_query /
        execute_select / show_tables / describe_table, and the
        execute-button handler of show_main_editor (query history).
-/

namespace SQLHandbook

/-- A scalar cell of a table: pandas int64, object (string), float64, or NaN.
Floats are modelled as exact rationals; the float rounding of the source is
out of scope (no claim observes a float bit pattern). -/
inductive Value where
  | int (n : Int)
  | str (s : String)
  | rat (q : Rat)
  | null
deriving DecidableEq

/-- A row: an ordered association of field name to scalar, as pandas
materialises one row of a DataFrame. -/
abbrev Row := List (String × Value)

/-- An in-memory table: ordered column names plus ordered rows.  Mirrors the
pandas DataFrames the source builds (insertion order is the canonical
order). -/
structure Table where
  cols : List String
  rows : List Row
deriving DecidableEq

/-- `pd.DataFrame()`: the empty frame the source returns from its
`except Exception` branches. -/
def Table.empty : Table := ⟨[], []⟩

/-- Errors Python raises inside the embedded fragments. -/
inductive PyErr where
  | keyError (k : String)
  | valueError (s : String)
  | attributeError (s : String)
  | typeError (s : String)
  | indexError (s : String)
deriving DecidableEq

/-- Cell of row `r` at column `c` (`row[c]`); `.null` when the field is
absent (rows of a well-formed table carry every declared field). -/
def cellAt (c : String) (r : Row) : Value := (r.lookup c).getD Value.null

/-- `df[c]` as a list of cell values; `KeyError` when `c` is not a column,
exactly as pandas raises on a missing label. -/
def Table.colValues (t : Table) (c : String) : Except PyErr (List Value) :=
  if c ∈ t.cols then .ok (t.rows.map (cellAt c)) else .error (.keyError c)

/- The string primitives below are written over `List Char` (a `String`'s
`data`) so that every one of them is structurally recursive: Lean's own
byte-position-based `String` functions (`trim`, `toUpper`, `splitOn`, ...)
do not reduce inside the kernel, which the concrete witnesses need. -/

/-- `l` starts with `p` (Python `startswith` on the underlying characters). -/
def charsStartsWith (l p : List Char) : Bool := p.isPrefixOf l

/-- Python `sub in s` on the underlying characters: the needle occurs at
some position (an empty needle always occurs). -/
def charsContains : List Char → List Char → Bool
  | _, [] => true
  | [], _ :: _ => false
  | c :: rest, p => charsStartsWith (c :: rest) p || charsContains rest p

/-- Python `sub in s`. -/
def containsSub (s sub : String) : Bool := charsContains s.data sub.data

/-- Word accumulator for `str.split()` (no argument): whitespace runs
separate words and produce no empty pieces. -/
def splitWsAux : List Char → List Char → List String
  | [], acc => if acc = [] then [] else [⟨acc.reverse⟩]
  | c :: rest, acc =>
    if c.isWhitespace then
      if acc = [] then splitWsAux rest [] else ⟨acc.reverse⟩ :: splitWsAux rest []
    else splitWsAux rest (c :: acc)

/-- Python `s.split()` with no argument. -/
def pySplitWs (s : String) : List String := splitWsAux s.data []

/-- Whitespace stripped from both ends of a character list. -/
def charsStrip (l : List Char) : List Char :=
  ((l.dropWhile Char.isWhitespace).reverse.dropWhile Char.isWhitespace).reverse

/-- Python `s.strip()`. -/
def pyStrip (s : String) : String := ⟨charsStrip s.data⟩

/-- Python `s.rstrip(";")`: drop trailing semicolons. -/
def pyRstripSemi (s : String) : String :=
  ⟨(s.data.reverse.dropWhile (fun c => c = ';')).reverse⟩

/-- Python `s.replace(old, "")` for a single-character `old`: removes every
occurrence of that character. -/
def charsRemoveChar (ch : Char) (s : String) : String :=
  ⟨s.data.filter (fun c => c ≠ ch)⟩

/-- Python `s.upper()` (the sources only upper-case ASCII SQL text). -/
def pyUpper (s : String) : String := ⟨s.data.map Char.toUpper⟩

/-- Python `int(s)` (base 10): optional surrounding whitespace, optional
sign, at least one ASCII digit; otherwise `ValueError`.  (Python also
accepts digit-group underscores and non-ASCII digits; no source input uses
them.) -/
def pyInt (s : String) : Except PyErr Int :=
  let t := charsStrip s.data
  let core := match t with
    | c :: rest => if c = '-' ∨ c = '+' then rest else t
    | [] => t
  if core ≠ [] ∧ core.all Char.isDigit then
    let n : Int := core.foldl (fun acc c => acc * 10 + ((c.toNat - 48 : Nat) : Int)) 0
    .ok (if t.headD ' ' = '-' then -n else n)
  else
    .error (.valueError s)

instance {ε α : Type} [DecidableEq ε] [DecidableEq α] : DecidableEq (Except ε α) :=
  fun a b =>
    match a, b with
    | .ok x, .ok y =>
        if h : x = y then .isTrue (by rw [h]) else .isFalse (by simp [h])
    | .ok _, .error _ => .isFalse (by simp)
    | .error _, .ok _ => .isFalse (by simp)
    | .error x, .error y =>
        if h : x = y then .isTrue (by rw [h]) else .isFalse (by simp [h])

/-- Pandas elementwise `==` between a cell and a comparison literal:
same-kind values compare structurally, int/float compare numerically, and
mismatched kinds (including NaN) are simply unequal - no error, no
coercion. -/
def pyEqVal : Value → Value → Bool
  | .int a, .int b => a = b
  | .str a, .str b => a = b
  | .rat a, .rat b => a = b
  | .int a, .rat b => (a : Rat) = b
  | .rat a, .int b => a = (b : Rat)
  | _, _ => false

/-- Ordering used by pandas comparisons and sorts on homogeneous columns:
numeric values numerically, strings lexicographically.  `none` for pairs a
pandas column of one dtype never holds (mixed kinds, NaN). -/
def pyCmp : Value → Value → Option Ordering
  | .int a, .int b => some (compare a b)
  | .rat a, .rat b => some (compare a b)
  | .int a, .rat b => some (compare (a : Rat) b)
  | .rat a, .int b => some (compare a (b : Rat))
  | .str a, .str b => some (compare a b)
  | _, _ => none

/-- `col > v` elementwise, as in `data["salary"] > 70000`. -/
def pyGt (a b : Value) : Bool := pyCmp a b = some .gt

/-- `col >= v` elementwise. -/
def pyGe (a b : Value) : Bool := pyCmp a b = some .gt ∨ pyCmp a b = some .eq

/-- `col < v` elementwise. -/
def pyLt (a b : Value) : Bool := pyCmp a b = some .lt

/-- `col <= v` elementwise. -/
def pyLe (a b : Value) : Bool := pyCmp a b = some .lt ∨ pyCmp a b = some .eq

/-- Key order for `sort_values`: NaN is placed last (pandas default
`na_position="last"`); incomparable kinds are treated as ties. -/
def cmpForSort (a b : Value) : Ordering :=
  match a, b with
  | .null, .null => .eq
  | .null, _ => .gt
  | _, .null => .lt
  | x, y => (pyCmp x y).getD .eq

/-- Insert into a sorted list, before the first element not `le`-below the
new one (keeps equal keys in arrival order). -/
def insertLe (le : α → α → Bool) (a : α) : List α → List α
  | [] => [a]
  | b :: l => if le a b then a :: b :: l else b :: insertLe le a l

/-- Insertion sort; stable for a total `le`. -/
def isortBy (le : α → α → Bool) : List α → List α
  | [] => []
  | a :: l => insertLe le a (isortBy le l)

/-- `df.sort_values(by=col, ascending=asc)`: returns a new, re-ordered frame
(never mutates its receiver); `KeyError` on a missing column.  The source
leaves `kind` at its pandas default `"quicksort"`, which does NOT promise a
tie order; this model fixes ties to input order (a stable sort).  No theorem
in this file relies on the tie order of this function. -/
def sortValues (t : Table) (col : String) (asc : Bool) : Except PyErr Table :=
  if col ∈ t.cols then
    let le : Row → Row → Bool := fun r1 r2 =>
      if asc then cmpForSort (cellAt col r1) (cellAt col r2) ≠ .gt
      else cmpForSort (cellAt col r1) (cellAt col r2) ≠ .lt
    .ok ⟨t.cols, isortBy le t.rows⟩
  else .error (.keyError col)

/-- Boolean-mask filtering `df[df[c] <pred> v]` once `c` is known to be a
column: keep the rows whose cell satisfies the predicate.  Pandas boolean
indexing returns a new frame. -/
def maskFilter (t : Table) (c : String) (p : Value → Bool) : Table :=
  ⟨t.cols, t.rows.filter (fun r => p (cellAt c r))⟩

/-- `df[columns]` column projection: `KeyError` on the first missing label,
else a new frame with the requested columns in the requested order. -/
def selectCols (t : Table) (columns : List String) : Except PyErr Table :=
  match columns.find? (fun c => ¬ c ∈ t.cols) with
  | some c => .error (.keyError c)
  | none =>
      .ok ⟨columns, t.rows.map (fun r => columns.map (fun c => (c, cellAt c r)))⟩

/-!
## pages/02_BasicQuery.py - `create_query_result`

```python
def create_query_result(data, query_type, **kwargs):
    if query_type == "select_all":
        return data.copy()
    elif query_type == "select_columns":
        columns = kwargs.get('columns', ['name', 'department', 'salary'])
        return data[columns].copy()
    elif query_type == "where_filter":
        condition = kwargs.get('condition')
        if condition == 'department_it': ...
    elif query_type == "order_by": ...
    elif query_type == "limit":
        limit = kwargs.get('limit', 3)
        offset = kwargs.get('offset', 0)
        return data.iloc[offset:offset+limit].copy()
    return data.copy()
```
An unrecognised `query_type`, or a `where_filter` whose condition matches no
branch, falls through to the final `return data.copy()`.
-/

/-- The `**kwargs` of `create_query_result`; `none` models an absent key, so
`kwargs.get(k, d)` is `getD`. -/
structure Kwargs where
  columns : Option (List String)
  condition : Option String
  column : Option String
  ascending : Option Bool
  limit : Option Nat
  offset : Option Nat
deriving DecidableEq

/-- `create_query_result` of pages/02_BasicQuery.py.  Lookups on missing
columns surface as the `PyErr` the uncaught Python exception would be. -/
def create_query_result (data : Table) (query_type : String) (kw : Kwargs) :
    Except PyErr Table :=
  if query_type = "select_all" then .ok data
  else if query_type = "select_columns" then
    selectCols data (kw.columns.getD ["name", "department", "salary"])
  else if query_type = "where_filter" then
    match kw.condition with
    | some c =>
      if c = "department_it" then do
        let _ ← data.colValues "department"
        .ok (maskFilter data "department" (fun v => pyEqVal v (.str "IT")))
      else if c = "salary_high" then do
        let _ ← data.colValues "salary"
        .ok (maskFilter data "salary" (fun v => pyGt v (.int 70000)))
      else if c = "salary_range" then do
        let _ ← data.colValues "salary"
        .ok (maskFilter data "salary"
          (fun v => pyGe v (.int 65000) ∧ pyLe v (.int 75000)))
      else if c = "name_starts_j" then do
        let _ ← data.colValues "name"
        .ok (maskFilter data "name"
          (fun v => match v with | .str s => s.startsWith "J" | _ => false))
      else .ok data
    | none => .ok data
  else if query_type = "order_by" then
    sortValues data (kw.column.getD "name") (kw.ascending.getD true)
  else if query_type = "limit" then
    let limit := kw.limit.getD 3
    let offset := kw.offset.getD 0
    .ok ⟨data.cols, (data.rows.drop offset).take limit⟩
  else .ok data

/-- Kwargs carrying only `limit` and `offset`, as the pagination widget
passes them. -/
def limitKwargs (L O : Nat) : Kwargs := ⟨none, none, none, none, some L, some O⟩

/-- C3.  The `"limit"` branch of `create_query_result` slices
`data.iloc[offset:offset+limit]`: it drops the first `O` rows, keeps at most
`L`, the result has `min L (n - O)` rows (truncated subtraction is
`max 0 (n - O)` over the integers), and an offset at or past the end gives
an empty result - an `.ok` table, never an error. -/
theorem pagination_drops_then_takes (data : Table) (L O : Nat) :
    create_query_result data "limit" (limitKwargs L O) =
      .ok ⟨data.cols, (data.rows.drop O).take L⟩ ∧
    ((data.rows.drop O).take L).length = min L (data.rows.length - O) ∧
    (data.rows.length ≤ O → (data.rows.drop O).take L = []) := by
  refine ⟨rfl, ?_, ?_⟩
  · rw [List.length_take, List.length_drop]
  · intro h
    rw [List.drop_eq_nil_of_le h, List.take_nil]

/-- C3 witness: a concrete 3-row table, limit 2, offset 5 - the offset is
past the end, so the slice is empty and has `min 2 (3 - 5) = 0` rows. -/
theorem pagination_drops_then_takes_offset_past_end :
    create_query_result
        ⟨["id"], [[("id", Value.int 1)], [("id", Value.int 2)],
                  [("id", Value.int 3)]]⟩ "limit" (limitKwargs 2 5) =
      .ok ⟨["id"], []⟩ := by
  have h := pagination_drops_then_takes
    ⟨["id"], [[("id", Value.int 1)], [("id", Value.int 2)],
              [("id", Value.int 3)]]⟩ 2 5
  rw [h.1, h.2.2 (by decide)]

/-!
## pages/07_AggregateQuery.py - aggregate query builder

```python
def generate_aggregate_query(func, column, distinct, use_where, where_col, where_val):
    distinct_part = "DISTINCT " if distinct else ""
    if func == "COUNT" and column == "sale_id":
        select_part = f"SELECT COUNT({distinct_part}*)"
    else:
        select_part = f"SELECT {func}({distinct_part}{column})"
    query = f"{select_part} FROM sales"
    if use_where and where_col and where_val:
        if where_col in ['product_category', 'region']:
            query += f"\nWHERE {where_col} = '{where_val}'"
        else:
            query += f"\nWHERE {where_col} = {where_val}"
    query += ";"
    return query
```
Python's truthiness test on the strings becomes a nonemptiness test.
-/

/-- `generate_aggregate_query` of pages/07_AggregateQuery.py: a total string
function - it always emits a query string, whatever the parameters. -/
def generate_aggregate_query (func column : String) (distinct use_where : Bool)
    (where_col where_val : String) : String :=
  let distinct_part := if distinct then "DISTINCT " else ""
  let select_part :=
    if func = "COUNT" ∧ column = "sale_id" then
      s!"SELECT COUNT({distinct_part}*)"
    else
      s!"SELECT {func}({distinct_part}{column})"
  let query := select_part ++ " FROM sales"
  let query :=
    if use_where ∧ where_col ≠ "" ∧ where_val ≠ "" then
      if where_col = "product_category" ∨ where_col = "region" then
        query ++ s!"\nWHERE {where_col} = \x27{where_val}\x27"
      else
        query ++ s!"\nWHERE {where_col} = {where_val}"
    else query
  query ++ ";"

/-- What `calculate_aggregate_result` returns: `len(values)` for COUNT, a
`:,.2f`-formatted number for the other aggregates (the decimal rendering of
the f-string is abstracted to the exact rational it formats), pandas NaN for
an empty selection, Python `None` when no aggregate branch matches, or the
`"Error: ..."` string of the `except` branch (carrying the caught error). -/
inductive AggOut where
  | num (n : Nat)
  | formatted (q : Rat)
  | nan
  | pynone
  | err (e : PyErr)
deriving DecidableEq

/-- `Series.drop_duplicates()`: keep the first occurrence of each value. -/
def dedupKeepFirst (values : List Value) : List Value := values.eraseDups

/-- The numeric entries of a column for SUM/AVG/MIN/MAX, skipping NaN as
pandas does.  A string entry makes the aggregate a `TypeError`: the
object-dtype corners of pandas (e.g. summing strings concatenates them) are
outside every claim, and this model refuses them rather than inventing a
value. -/
def numsOf (values : List Value) : Except PyErr (List Rat) :=
  values.foldr
    (fun v acc => do
      let l ← acc
      match v with
      | .int n => .ok ((n : Rat) :: l)
      | .rat q => .ok (q :: l)
      | .null => .ok l
      | .str s => .error (.typeError s))
    (.ok [])

/-- Sum of a list of rationals (pandas `sum()`, 0 on empty). -/
def sumNums (l : List Rat) : Rat := l.foldl (fun a b => a + b) 0

/-- `min()` over the non-null entries; NaN on an empty selection. -/
def minOut : List Rat → AggOut
  | [] => .nan
  | a :: l => .formatted (l.foldl min a)

/-- `max()` over the non-null entries; NaN on an empty selection. -/
def maxOut : List Rat → AggOut
  | [] => .nan
  | a :: l => .formatted (l.foldl max a)

/-- `calculate_aggregate_result` of pages/07_AggregateQuery.py.

```python
def calculate_aggregate_result(df, func, column, distinct, use_where, where_col, where_val):
    try:
        if use_where and where_col and where_val:
            if where_col in ['product_category', 'region']:
                df = df[df[where_col] == where_val]
            else:
                df = df[df[where_col] == int(where_val)]
        if distinct:
            values = df[column].drop_duplicates()
        else:
            values = df[column]
        if func == "COUNT":
            return len(values)
        elif func == "SUM":
            return f"{values.sum():,.2f}"
        ... AVG / MIN / MAX ...
    except Exception as e:
        return f"Error: {str(e)}"
```
For a column not named `product_category`/`region` the comparison value is
coerced with `int(where_val)`; Python evaluates `df[where_col]` (KeyError)
before `int(where_val)` (ValueError).  Every exception is caught and turned
into the `"Error: ..."` return value, modelled as `.err`.  The `WHERE` block
at the top is split off as `aggWhere`. -/
def aggWhere (df : Table) (use_where : Bool) (where_col where_val : String) :
    Except PyErr Table :=
  if use_where ∧ where_col ≠ "" ∧ where_val ≠ "" then
    if where_col = "product_category" ∨ where_col = "region" then do
      let _ ← df.colValues where_col
      pure (maskFilter df where_col (fun v => pyEqVal v (.str where_val)))
    else do
      let _ ← df.colValues where_col
      let n ← pyInt where_val
      pure (maskFilter df where_col (fun v => pyEqVal v (.int n)))
  else pure df

/-- `calculate_aggregate_result` of pages/07_AggregateQuery.py, quoted
above: `aggWhere`, then column selection, optional `drop_duplicates`, then
the aggregate branch chain; the `except` branch becomes `.err`. -/
def calculate_aggregate_result (df : Table) (func column : String)
    (distinct use_where : Bool) (where_col where_val : String) : AggOut :=
  let body : Except PyErr AggOut := do
    let df ← aggWhere df use_where where_col where_val
    let values ← df.colValues column
    let values := if distinct then dedupKeepFirst values else values
    if func = "COUNT" then pure (.num values.length)
    else if func = "SUM" then do
      let nums ← numsOf values
      pure (.formatted (sumNums nums))
    else if func = "AVG" then do
      let nums ← numsOf values
      pure (if nums.length = 0 then .nan
            else .formatted (sumNums nums / (nums.length : Rat)))
    else if func = "MIN" then do
      let nums ← numsOf values
      pure (minOut nums)
    else if func = "MAX" then do
      let nums ← numsOf values
      pure (maxOut nums)
    else pure .pynone
  match body with
  | .ok out => out
  | .error e => .err e

/-- A concrete sales-like table used as the counterexample input: a numeric
`year` column and a numeric `sale_amount` column. -/
def salesDemo : Table :=
  ⟨["sale_id", "product_category", "region", "year", "sale_amount"],
   [[("sale_id", .int 1), ("product_category", .str "Electronics"),
     ("region", .str "North"), ("year", .int 2023), ("sale_amount", .int 100)],
    [("sale_id", .int 2), ("product_category", .str "Clothing"),
     ("region", .str "South"), ("year", .int 2024), ("sale_amount", .int 200)]]⟩

/-- C4 counterexample.  Filtering the numeric `year` field by the textual
value `"2023"` does NOT signal a TypeMismatch: the text is silently coerced
by `int()` and the comparison proceeds - the evaluator returns the count of
the matching row. -/
theorem textual_value_on_numeric_field_is_coerced :
    calculate_aggregate_result salesDemo "COUNT" "sale_amount" false true
      "year" "2023" = .num 1 := by decide

/-- C4 as amended.  No TypeMismatch diagnostic exists: a textual comparison
value on a numeric-designated filter column is coerced with `int()`; when
the text is not an integer literal the caught ValueError comes back as the
generic error string (`.err`), and the comparison is indeed never run. -/
theorem failed_coercion_returns_generic_error (df : Table) (func column : String)
    (distinct : Bool) (where_col where_val : String) (e : PyErr)
    (hcat : where_col ≠ "product_category") (hreg : where_col ≠ "region")
    (hne : where_col ≠ "") (hv : where_val ≠ "")
    (hcol : where_col ∈ df.cols) (hparse : pyInt where_val = .error e) :
    calculate_aggregate_result df func column distinct true where_col where_val =
      .err e := by
  have h1 : aggWhere df true where_col where_val = .error e := by
    unfold aggWhere
    rw [if_pos ⟨rfl, hne, hv⟩, if_neg (fun h => h.elim hcat hreg)]
    have hcv : df.colValues where_col = .ok (df.rows.map (cellAt where_col)) := by
      unfold Table.colValues
      rw [if_pos hcol]
    rw [hcv, hparse]
    rfl
  unfold calculate_aggregate_result
  rw [h1]
  rfl

/-- C4 amended witness: the concrete table, filter column `year`, textual
value `"abc"` - `int("abc")` fails and the generic error string comes
back. -/
theorem failed_coercion_returns_generic_error_witness :
    calculate_aggregate_result salesDemo "COUNT" "sale_amount" false true
      "year" "abc" = .err (.valueError "abc") :=
  failed_coercion_returns_generic_error salesDemo "COUNT" "sale_amount" false
    "year" "abc" (.valueError "abc") (by decide) (by decide) (by decide)
    (by decide) (by decide) (by decide)

/-!
## pages/07_AggregateQuery.py - `generate_group_by_query`

```python
def generate_group_by_query(group_cols, agg_funcs, use_order, limit_results, limit_count):
    select_parts = group_cols + agg_funcs
    query = f"SELECT \n    {',\n    '.join(select_parts)}\nFROM sales"
    if group_cols:
        query += f"\nGROUP BY {', '.join(group_cols)}"
    if use_order:
        query += f"\nORDER BY {group_cols[0]}" if group_cols else "\nORDER BY COUNT(*) DESC"
    if limit_results:
        query += f"\nLIMIT {limit_count}"
    query += ";"
    return query
```
-/

/-- `generate_group_by_query` of pages/07_AggregateQuery.py: a total string
function.  Its caller refuses to invoke it when the selections are empty;
the function itself emits text for every input. -/
def generate_group_by_query (group_cols agg_funcs : List String)
    (use_order limit_results : Bool) (limit_count : Nat) : String :=
  let select_parts := group_cols ++ agg_funcs
  let query := "SELECT \n    " ++ String.intercalate ",\n    " select_parts
    ++ "\nFROM sales"
  let query :=
    if group_cols ≠ [] then
      query ++ "\nGROUP BY " ++ String.intercalate ", " group_cols
    else query
  let query :=
    if use_order then
      match group_cols with
      | [] => query ++ "\nORDER BY COUNT(*) DESC"
      | c :: _ => query ++ s!"\nORDER BY {c}"
    else query
  let query := if limit_results then query ++ s!"\nLIMIT {limit_count}" else query
  query ++ ";"

/-- C5 counterexample.  A Parameter Set missing every required field (no
grouping keys, no aggregates) still makes the renderer emit SQL text - the
malformed `SELECT \n    \nFROM sales;` - instead of reporting a
MissingParameter condition and emitting nothing. -/
theorem empty_parameter_set_still_renders_sql :
    generate_group_by_query [] [] false false 10 = "SELECT \n    \nFROM sales;" := by
  decide

/-- C5 as amended.  Both renderers are total string functions with no
MissingParameter channel: for every Parameter Set, required fields present
or not, they emit a SQL string (always of the shape `... ++ ";"`); the UI
caller separately skips calling them when selections are empty. -/
theorem renderers_always_emit_sql :
    (∀ gc af uo lr lc, ∃ s, generate_group_by_query gc af uo lr lc = s ++ ";") ∧
    (∀ f c d uw wc wv, ∃ s, generate_aggregate_query f c d uw wc wv = s ++ ";") := by
  constructor
  · intro gc af uo lr lc
    exact ⟨_, rfl⟩
  · intro f c d uw wc wv
    exact ⟨_, rfl⟩

/-!
## pages/07_AggregateQuery.py - `calculate_group_by_result`

```python
def calculate_group_by_result(df, group_cols, agg_funcs):
    try:
        if not group_cols:
            return pd.DataFrame()
        agg_dict = {}
        result_cols = {}
        for func in agg_funcs:
            if "COUNT(*)" in func:
                agg_dict['sale_id'] = 'count'
                result_cols['sale_id'] = 'count'
            elif "SUM(sale_amount)" in func:
                agg_dict['sale_amount'] = 'sum'
                result_cols['sale_amount'] = 'total_revenue'
            elif "AVG(sale_amount)" in func:
                if 'sale_amount' not in agg_dict:
                    agg_dict['sale_amount'] = ['mean']
                else:
                    agg_dict['sale_amount'].append('mean')
                result_cols['sale_amount'] = 'avg_sale'
            elif "MIN(sale_amount)" in func: ... ['min'] / .append('min') ...
            elif "MAX(sale_amount)" in func: ... ['max'] / .append('max') ...
        grouped = df.groupby(group_cols).agg(agg_dict).round(2)
        grouped.columns = ['_'.join(col).strip() if col[1] else col[0]
                           for col in grouped.columns.values]
        return grouped.reset_index()
    except Exception as e:
        st.error(f"Error calculating result: {str(e)}")
        return pd.DataFrame()
```
Notes on the embedded semantics, all from pandas/Python behaviour:
  * `result_cols` is built and never read - dead code, not modelled;
  * `agg_dict['sale_amount'].append('mean')` on a value that is the bare
    string `'sum'` raises `AttributeError` (strings have no `append`);
  * `df.groupby(cols)` raises `KeyError` on a grouping label absent from
    the frame, before aggregation; `.agg(dict)` raises `KeyError` on an
    aggregation label absent from the frame;
  * `groupby(..., sort=True)` (the default) orders the result by ascending
    group key, not by first appearance, and drops rows whose key is NaN;
  * with only string values in the dict the aggregated columns keep their
    plain one-level names, so `col` in the rename comprehension is a
    STRING: `col[1]` is its second character (truthy), `'_'.join(col)`
    interleaves underscores between its characters (`sale_id` becomes
    `s_a_l_e___i_d`), and a name shorter than 2 raises `IndexError`;
    with a list value anywhere the columns are two-level, `col` is a
    `(label, op)` pair and the comprehension produces `label_op`;
  * every exception is caught and mapped to an empty frame (plus a UI
    error banner, which is presentation, not a returned value).
-/

/-- A value of the Python `agg_dict`: a bare aggregation-name string or a
list of aggregation names. -/
inductive PyAggVal where
  | pstr (s : String)
  | plist (l : List String)
deriving DecidableEq

/-- Python dict assignment `d[k] = v` on an insertion-ordered association
list: overwrite in place or append. -/
def dictSet : List (String × PyAggVal) → String → PyAggVal →
    List (String × PyAggVal)
  | [], k, v => [(k, v)]
  | (k0, v0) :: rest, k, v =>
    if k0 = k then (k0, v) :: rest else (k0, v0) :: dictSet rest k v

/-- The `for func in agg_funcs` loop building `agg_dict`.  `AttributeError`
when `.append` is called on a bare-string entry. -/
def buildAggDict : List String → List (String × PyAggVal) →
    Except PyErr (List (String × PyAggVal))
  | [], d => .ok d
  | f :: rest, d =>
    if containsSub f "COUNT(*)" then
      buildAggDict rest (dictSet d "sale_id" (.pstr "count"))
    else if containsSub f "SUM(sale_amount)" then
      buildAggDict rest (dictSet d "sale_amount" (.pstr "sum"))
    else if containsSub f "AVG(sale_amount)" then
      match d.lookup "sale_amount" with
      | none => buildAggDict rest (dictSet d "sale_amount" (.plist ["mean"]))
      | some (.plist l) =>
          buildAggDict rest (dictSet d "sale_amount" (.plist (l ++ ["mean"])))
      | some (.pstr s) => .error (.attributeError s)
    else if containsSub f "MIN(sale_amount)" then
      match d.lookup "sale_amount" with
      | none => buildAggDict rest (dictSet d "sale_amount" (.plist ["min"]))
      | some (.plist l) =>
          buildAggDict rest (dictSet d "sale_amount" (.plist (l ++ ["min"])))
      | some (.pstr s) => .error (.attributeError s)
    else if containsSub f "MAX(sale_amount)" then
      match d.lookup "sale_amount" with
      | none => buildAggDict rest (dictSet d "sale_amount" (.plist ["max"]))
      | some (.plist l) =>
          buildAggDict rest (dictSet d "sale_amount" (.plist (l ++ ["max"])))
      | some (.pstr s) => .error (.attributeError s)
    else buildAggDict rest d

/-- The tuple of grouping-key values of one row. -/
def keyTuple (gcols : List String) (r : Row) : List Value :=
  gcols.map (fun c => cellAt c r)

/-- Lexicographic order on key tuples, the order `groupby(sort=True)` uses
for the result. -/
def cmpKeysLex : List Value → List Value → Ordering
  | [], [] => .eq
  | [], _ :: _ => .lt
  | _ :: _, [] => .gt
  | a :: l1, b :: l2 =>
    match cmpForSort a b with
    | .eq => cmpKeysLex l1 l2
    | o => o

/-- Round-half-to-even of a rational to an integer (what `round` does at
representable midpoints). -/
def roundHalfEven (q : Rat) : Int :=
  let f := q.floor
  let frac := q - (f : Rat)
  if frac < 1/2 then f
  else if 1/2 < frac then f + 1
  else if f % 2 = 0 then f else f + 1

/-- `.round(2)` on one cell: rounds numeric (float-modelled) cells to two
decimals, leaves everything else alone. -/
def roundVal2 : Value → Value
  | .rat q => .rat ((roundHalfEven (q * 100) : Rat) / 100)
  | v => v

/-- One pandas aggregation by name over the cells of one group.  `count` is
the non-null count; `sum`/`mean`/`min`/`max` skip NaN and need numeric
cells (`numsOf`); a name pandas does not know raises. -/
def applyAggOp (op : String) (vals : List Value) : Except PyErr Value :=
  if op = "count" then .ok (.int ((vals.filter (fun v => v ≠ .null)).length : Nat))
  else if op = "sum" then do
    let nums ← numsOf vals
    pure (.rat (sumNums nums))
  else if op = "mean" then do
    let nums ← numsOf vals
    pure (if nums.length = 0 then .null
          else .rat (sumNums nums / (nums.length : Rat)))
  else if op = "min" then do
    let nums ← numsOf vals
    pure (match nums with | [] => .null | a :: l => .rat (l.foldl min a))
  else if op = "max" then do
    let nums ← numsOf vals
    pure (match nums with | [] => .null | a :: l => .rat (l.foldl max a))
  else .error (.valueError op)

/-- The one-level column rename `'_'.join(col).strip() if col[1] else
col[0]` when `col` is a plain string: `col[1]` raises `IndexError` on a
name shorter than two characters, otherwise it is a truthy character and
the join interleaves underscores. -/
def flatManglePy (k : String) : Except PyErr String :=
  if k.length < 2 then .error (.indexError k)
  else .ok (pyStrip (String.intercalate "_" (k.data.map (fun c => String.mk [c]))))

/-- The two-level column rename when `col` is a `(label, op)` pair. -/
def tupleNamePy (k op : String) : String :=
  if op ≠ "" then pyStrip (k ++ "_" ++ op) else k

/-- `df.groupby(group_cols).agg(agg_dict).round(2)`, the rename
comprehension, and `reset_index()`, as one `Except` computation. -/
def groupbyAgg (df : Table) (group_cols : List String)
    (agg_dict : List (String × PyAggVal)) : Except PyErr Table := do
  match group_cols.find? (fun c => ¬ c ∈ df.cols) with
  | some c => .error (.keyError c)
  | none =>
  match (agg_dict.map Prod.fst).find? (fun c => ¬ c ∈ df.cols) with
  | some c => .error (.keyError c)
  | none => do
    let specs : List (String × String) := agg_dict.flatMap (fun kv =>
      match kv.2 with
      | .pstr s => [(kv.1, s)]
      | .plist l => l.map (fun op => (kv.1, op)))
    let flat := agg_dict.all (fun kv =>
      match kv.2 with | .pstr _ => true | .plist _ => false)
    let names ←
      if flat then (agg_dict.map Prod.fst).mapM flatManglePy
      else pure (specs.map (fun kv => tupleNamePy kv.1 kv.2))
    let validRows := df.rows.filter
      (fun r => (keyTuple group_cols r).all (fun v => v ≠ .null))
    let keys := (validRows.map (keyTuple group_cols)).eraseDups
    let sortedKeys := isortBy (fun a b => cmpKeysLex a b ≠ .gt) keys
    let outRows ← sortedKeys.mapM (fun key => do
      let members := validRows.filter (fun r => keyTuple group_cols r = key)
      let aggVals ← specs.mapM (fun spec => do
        let v ← applyAggOp spec.2 (members.map (cellAt spec.1))
        pure (roundVal2 v))
      pure ((group_cols.zip key) ++ (names.zip aggVals) : Row))
    pure ⟨group_cols ++ names, outRows⟩

/-- `calculate_group_by_result` of pages/07_AggregateQuery.py (quoted and
annotated above).  Total: every internal exception is caught and mapped to
the empty frame the `except` branch returns. -/
def calculate_group_by_result (df : Table) (group_cols agg_funcs : List String) :
    Table :=
  let body : Except PyErr Table :=
    if group_cols = [] then pure Table.empty
    else do
      let agg_dict ← buildAggDict agg_funcs []
      groupbyAgg df group_cols agg_dict
  match body with
  | .ok t => t
  | .error _ => Table.empty

/-- The three-row employee table of the spec's worked example
(`[{id:1,dept:'IT',salary:75000}, {id:2,dept:'HR',salary:65000},
{id:3,dept:'IT',salary:80000}]`). -/
def employees3 : Table :=
  ⟨["id", "dept", "salary"],
   [[("id", .int 1), ("dept", .str "IT"), ("salary", .int 75000)],
    [("id", .int 2), ("dept", .str "HR"), ("salary", .int 65000)],
    [("id", .int 3), ("dept", .str "IT"), ("salary", .int 80000)]]⟩

/-- Modelled from the spec: the result table the spec's grouping scenario
claims - `[{dept:'IT',count:2},{dept:'HR',count:1}]`, IT first.  Written
from the spec's words only, for comparison against what the code
computes. -/
def claimedDeptCounts : Table :=
  ⟨["dept", "count"],
   [[("dept", .str "IT"), ("count", .int 2)],
    [("dept", .str "HR"), ("count", .int 1)]]⟩

/-- C6 counterexample.  Grouping the spec's three-row employee table by
`dept` with `COUNT(*)` does not produce the claimed
`[{dept:'IT',count:2},{dept:'HR',count:1}]`. -/
theorem group_by_dept_count_not_as_claimed :
    calculate_group_by_result employees3 ["dept"] ["COUNT(*) as count"] ≠
      claimedDeptCounts := by decide

/-- C6 as amended.  On that table the evaluation returns the EMPTY table:
`COUNT(*)` is hard-wired to aggregate a `sale_id` column, which the
employee table does not have, and the resulting `KeyError` is caught and
mapped to an empty frame. -/
theorem group_by_dept_count_is_empty :
    ¬ "sale_id" ∈ employees3.cols ∧
    calculate_group_by_result employees3 ["dept"] ["COUNT(*) as count"] =
      Table.empty := by decide

/-- C1 counterexample.  Evaluating a grouping Parameter Set whose column
`"bogus"` is not a field of the (non-empty) table returns the silently
empty table - there is no UnknownColumn diagnostic in the return value at
all. -/
theorem unknown_column_returns_empty_table :
    calculate_group_by_result employees3 ["bogus"] ["COUNT(*) as count"] =
      Table.empty ∧ employees3.rows.length = 3 := by decide

/-- C1 as amended.  An unknown column never comes back as an UnknownColumn
diagnostic: the group-by evaluator catches the internal KeyError and
returns an empty table (the UI shows a banner, the caller gets no
diagnostic value), and the aggregate evaluator returns the caught KeyError
as its generic `"Error: ..."` string. -/
theorem unknown_column_amended :
    (∀ (df : Table) (gcols aggfs : List String) (c : String),
        c ∈ gcols → ¬ c ∈ df.cols →
        calculate_group_by_result df gcols aggfs = Table.empty) ∧
    (∀ (df : Table) (func column : String) (d : Bool) (wcol wval : String),
        ¬ wcol ∈ df.cols → wcol ≠ "" → wval ≠ "" →
        calculate_aggregate_result df func column d true wcol wval =
          .err (.keyError wcol)) := by
  constructor
  · intro df gcols aggfs c hc hnot
    unfold calculate_group_by_result
    rw [if_neg (by rintro rfl; exact (List.not_mem_nil c) hc)]
    rcases hb : buildAggDict aggfs [] with e | d
    · rfl
    · have hfind : ∃ x ∈ gcols, (fun c => ¬ c ∈ df.cols : String → Prop) x :=
        ⟨c, hc, hnot⟩
      rcases hsome : gcols.find? (fun c => decide (¬ c ∈ df.cols)) with _ | c2
      · exfalso
        have : (gcols.find? (fun c => decide (¬ c ∈ df.cols))).isSome :=
          List.find?_isSome.mpr
            ⟨c, hc, by simp only [decide_eq_true_eq]; exact hnot⟩
        rw [hsome] at this
        simp at this
      · unfold groupbyAgg
        rw [hsome]
        rfl
  · intro df func column d wcol wval hnot hne hv
    have hcv : df.colValues wcol = .error (.keyError wcol) := by
      unfold Table.colValues
      rw [if_neg hnot]
    have haw : aggWhere df true wcol wval = .error (.keyError wcol) := by
      unfold aggWhere
      rw [if_pos ⟨rfl, hne, hv⟩]
      by_cases hcat : wcol = "product_category" ∨ wcol = "region"
      · rw [if_pos hcat, hcv]
        rfl
      · rw [if_neg hcat, hcv]
        rfl
    unfold calculate_aggregate_result
    rw [haw]
    rfl

/-- C1 amended witness: the concrete sales table with the unknown column
`"bogus"` in both the grouping path (empty table back) and the aggregate
path (generic caught-KeyError back). -/
theorem unknown_column_amended_witness :
    calculate_group_by_result salesDemo ["bogus"] ["COUNT(*) as count"] =
      Table.empty ∧
    calculate_aggregate_result salesDemo "COUNT" "sale_amount" false true
      "bogus" "x" = .err (.keyError "bogus") :=
  ⟨unknown_column_amended.1 salesDemo ["bogus"] ["COUNT(*) as count"] "bogus"
      (by decide) (by decide),
   unknown_column_amended.2 salesDemo "COUNT" "sale_amount" false "bogus" "x"
      (by decide) (by decide) (by decide)⟩

/-!
## pages/SQLQueryEditor.py - `QueryExecutor` (simulation)

```python
def execute_query(self, query):
    try:
        query_clean = query.strip().rstrip(';')
        if query_clean.upper().startswith('SELECT'):
            return self.execute_select(query_clean)
        elif query_clean.upper().startswith('SHOW TABLES'):
            return self.show_tables()
        elif query_clean.upper().startswith('DESCRIBE') or query_clean.upper().startswith('DESC'):
            return self.describe_table(query_clean)
        else:
            return {'success': False, 'error': 'Only SELECT, ...', 'result': None}
    except Exception as e:
        return {'success': False, 'error': str(e), 'result': None}
```
The executor's database is the dict of sample tables; it is modelled as an
insertion-ordered association list with distinct keys (a Python dict).  The
returned dicts become a record whose absent keys are `none`.  The inner
operations of the model are total, so the `except` arm of `execute_query`
has nothing left to catch.
-/

/-- A result dict of the query executor: `success` plus the optional
`error` / `result` / `rows_affected` / `note` keys. -/
structure QueryResult where
  success : Bool
  error : Option String
  result : Option Table
  rows_affected : Option Nat
  note : Option String
deriving DecidableEq

/-- Python `s.startswith(p)`. -/
def pyStartsWith (s p : String) : Bool := charsStartsWith s.data p.data

/-- The first token following the first (case-insensitive) `FROM` token, if
any: the `for i, part in enumerate(parts): if part.upper() == 'FROM' ...
break` scan plus the `from_index + 1 < len(parts)` guard of
`execute_select`. -/
def findFromToken : List String → Option String
  | [] => none
  | [p] => if pyUpper p = "FROM" then none else none
  | p :: q :: rest => if pyUpper p = "FROM" then some q else findFromToken (q :: rest)

/-- The "extract table name (simplified)" block of `execute_select`: only
when `'FROM' in query.upper()`, take the token after the first `FROM` and
strip commas and semicolons from it. -/
def fromTableName (query : String) : Option String :=
  if containsSub (pyUpper query) "FROM" then
    match findFromToken (pySplitWs query) with
    | some tok => some (charsRemoveChar ';' (charsRemoveChar ',' tok))
    | none => none
  else none

/-- `re.search(r'LIMIT\s+(\d+)', query, re.IGNORECASE)` at one position:
five characters spelling LIMIT case-insensitively, at least one whitespace,
at least one digit; the digit run as a number. -/
def matchLimitAt (l : List Char) : Option Nat :=
  match l with
  | c1 :: c2 :: c3 :: c4 :: c5 :: rest =>
    if [c1, c2, c3, c4, c5].map Char.toUpper = ['L', 'I', 'M', 'I', 'T'] then
      let ws := rest.takeWhile Char.isWhitespace
      let after := rest.dropWhile Char.isWhitespace
      let digits := after.takeWhile Char.isDigit
      if ws ≠ [] ∧ digits ≠ [] then
        some (digits.foldl (fun acc c => acc * 10 + (c.toNat - 48)) 0)
      else none
    else none
  | _ => none

/-- Leftmost match of the LIMIT regex, as `re.search` finds it. -/
def findLimitAux : List Char → Option Nat
  | [] => none
  | c :: rest =>
    match matchLimitAt (c :: rest) with
    | some n => some n
    | none => findLimitAux rest

/-- The `re.search(r'LIMIT\s+(\d+)', query, re.IGNORECASE)` capture of
`execute_select`, as a number. -/
def findLimitNum (query : String) : Option Nat := findLimitAux query.data

/-- `QueryExecutor.execute_select` of pages/SQLQueryEditor.py.

```python
def execute_select(self, query):
    query_upper = query.upper()
    if 'FROM' in query_upper:
        ... find table_name after FROM ...
        if table_name in self.database:
            df = self.database[table_name].copy()
            if 'LIMIT' in query_upper:
                limit_match = re.search(r'LIMIT\s+(\d+)', query, re.IGNORECASE)
                if limit_match:
                    df = df.head(int(limit_match.group(1)))
            if df.shape[0] > 10 and 'LIMIT' not in query_upper:
                df = df.head(10)
                note = f"Showing first 10 rows of {df.shape[0]} total rows"
            else:
                note = f"Returned {df.shape[0]} rows"
            return {'success': True, 'result': df, 'rows_affected': len(df), 'note': note}
        else:
            return {'success': False, 'error': f"Table '{table_name}' not found", 'result': None}
    return {'success': False, 'error': 'Could not parse query', 'result': None}
```
(Note the source computes the "total rows" of the note AFTER truncating
`df`, so the note always says 10; the model reproduces that.) -/
def execute_select (db : List (String × Table)) (query : String) : QueryResult :=
  let query_upper := pyUpper query
  match fromTableName query with
  | some table_name =>
    match db.lookup table_name with
    | some t =>
      let df := t
      let df :=
        if containsSub query_upper "LIMIT" then
          match findLimitNum query with
          | some limit_val => (⟨df.cols, df.rows.take limit_val⟩ : Table)
          | none => df
        else df
      if df.rows.length > 10 ∧ ¬ containsSub query_upper "LIMIT" then
        let df2 : Table := ⟨df.cols, df.rows.take 10⟩
        ⟨true, none, some df2, some df2.rows.length,
          some s!"Showing first 10 rows of {df2.rows.length} total rows"⟩
      else
        ⟨true, none, some df, some df.rows.length,
          some s!"Returned {df.rows.length} rows"⟩
    | none =>
      ⟨false, some s!"Table \x27{table_name}\x27 not found", none, none, none⟩
  | none => ⟨false, some "Could not parse query", none, none, none⟩

/-- `QueryExecutor.show_tables`: one row per table of the database, with
its name, row count and column count. -/
def show_tables (db : List (String × Table)) : QueryResult :=
  let tables_df : Table :=
    ⟨["Table", "Rows", "Columns"],
     db.map (fun kv =>
       [("Table", Value.str kv.1), ("Rows", Value.int kv.2.rows.length),
        ("Columns", Value.int kv.2.cols.length)])⟩
  ⟨true, none, some tables_df, some tables_df.rows.length, none⟩

/-- `str(df[col].dtype)` approximated from the cell kinds: any string makes
the column `object`, else any float/NaN makes it `float64`, else `int64`
(an empty frame's default is `object`).  No claim inspects these labels. -/
def dtypeOf (vals : List Value) : String :=
  if vals.any (fun v => match v with | .str _ => true | _ => false) then "object"
  else if vals.any (fun v => match v with | .rat _ => true | .null => true | _ => false)
    then "float64"
  else if vals ≠ [] then "int64" else "object"

/-- `QueryExecutor.describe_table`: `parts[1]` with semicolons stripped
names the table; one description row per column. -/
def describe_table (db : List (String × Table)) (query : String) : QueryResult :=
  match pySplitWs query with
  | _ :: p1 :: _ =>
    let table_name := charsRemoveChar ';' p1
    match db.lookup table_name with
    | some t =>
      let desc_df : Table :=
        ⟨["Column", "Type", "Null", "Key", "Default", "Extra"],
         t.cols.map (fun c =>
           [("Column", Value.str c),
            ("Type", Value.str (dtypeOf (t.rows.map (cellAt c)))),
            ("Null", Value.str "YES"), ("Key", Value.str ""),
            ("Default", Value.null), ("Extra", Value.str "")])⟩
      ⟨true, none, some desc_df, some desc_df.rows.length, none⟩
    | none =>
      ⟨false, some s!"Table \x27{table_name}\x27 not found", none, none, none⟩
  | _ => ⟨false, some "Invalid DESCRIBE syntax", none, none, none⟩

/-- `QueryExecutor.execute_query` (quoted above): clean the query, dispatch
on its first keyword, or report the unsupported-statement error. -/
def execute_query (db : List (String × Table)) (query : String) : QueryResult :=
  let query_clean := pyRstripSemi (pyStrip query)
  if pyStartsWith (pyUpper query_clean) "SELECT" then execute_select db query_clean
  else if pyStartsWith (pyUpper query_clean) "SHOW TABLES" then show_tables db
  else if pyStartsWith (pyUpper query_clean) "DESCRIBE" ∨
      pyStartsWith (pyUpper query_clean) "DESC" then
    describe_table db query_clean
  else
    ⟨false,
     some "Only SELECT, SHOW TABLES, and DESCRIBE queries are supported in this demo",
     none, none, none⟩

/-- `execute_select` always returns a dict with a success flag and either a
result frame or an error message. -/
theorem execute_select_explicit (db : List (String × Table)) (query : String) :
    ((execute_select db query).success = true ∧
      ((execute_select db query).result).isSome = true) ∨
    ((execute_select db query).success = false ∧
      ((execute_select db query).error).isSome = true) := by
  rcases hf : fromTableName query with _ | name
  · right
    exact ⟨by simp [execute_select, hf], by simp [execute_select, hf]⟩
  · rcases hl : List.lookup name db with _ | t
    · right
      exact ⟨by simp [execute_select, hf, hl], by simp [execute_select, hf, hl]⟩
    · left
      refine ⟨?_, ?_⟩ <;>
        simp [execute_select, hf, hl, apply_ite QueryResult.success,
          apply_ite QueryResult.result, apply_ite Option.isSome]

/-- C8.  Every query execution returns an explicit result value: a success
flag with a result table on success, or a success-false flag with an error
message - the model's branches are total, so nothing escapes as an uncaught
fault. -/
theorem execution_returns_explicit_result (db : List (String × Table))
    (query : String) :
    ((execute_query db query).success = true ∧
      ((execute_query db query).result).isSome = true) ∨
    ((execute_query db query).success = false ∧
      ((execute_query db query).error).isSome = true) := by
  unfold execute_query
  dsimp only
  split
  · exact execute_select_explicit db _
  · split
    · left
      exact ⟨rfl, rfl⟩
    · split
      · rcases hp : pySplitWs (pyRstripSemi (pyStrip query)) with _ | ⟨p0, _ | ⟨p1, rest⟩⟩
        · right
          exact ⟨by simp [describe_table, hp], by simp [describe_table, hp]⟩
        · right
          exact ⟨by simp [describe_table, hp], by simp [describe_table, hp]⟩
        · rcases hl : List.lookup (charsRemoveChar ';' p1) db with _ | t
          · right
            exact ⟨by simp [describe_table, hp, hl], by simp [describe_table, hp, hl]⟩
          · left
            exact ⟨by simp [describe_table, hp, hl], by simp [describe_table, hp, hl]⟩
      · right
        exact ⟨rfl, rfl⟩

/-- C10.  A SELECT over a known table with no LIMIT anywhere in the query
is silently truncated: when the table has more than 10 rows the executor
returns exactly its first 10 rows, not the whole table. -/
theorem select_without_limit_returns_first_10 (db : List (String × Table))
    (query name : String) (t : Table)
    (hname : fromTableName query = some name)
    (hlookup : db.lookup name = some t)
    (hnolimit : containsSub (pyUpper query) "LIMIT" = false)
    (hbig : 10 < t.rows.length) :
    (execute_select db query).success = true ∧
    (execute_select db query).result = some ⟨t.cols, t.rows.take 10⟩ ∧
    (t.rows.take 10).length < t.rows.length := by
  have hres : execute_select db query =
      ⟨true, none, some ⟨t.cols, t.rows.take 10⟩, some (t.rows.take 10).length,
        some s!"Showing first 10 rows of {(t.rows.take 10).length} total rows"⟩ := by
    simp only [execute_select, hname, hlookup, hnolimit, Bool.false_eq_true,
      if_false, not_false_eq_true, and_true, gt_iff_lt]
    rw [if_pos hbig]
  refine ⟨by rw [hres], by rw [hres], ?_⟩
  rw [List.length_take]
  omega

/-- An 11-row single-column table for the C10 witness. -/
def customers11 : Table :=
  ⟨["customer_id"],
   (List.range 11).map (fun k => [("customer_id", Value.int k)])⟩

/-- C10 witness: `SELECT * FROM customers` over an 11-row `customers` table
comes back truncated to the first 10 rows. -/
theorem select_without_limit_returns_first_10_witness :
    (execute_select [("customers", customers11)] "SELECT * FROM customers").success
        = true ∧
    (execute_select [("customers", customers11)] "SELECT * FROM customers").result
        = some ⟨customers11.cols, customers11.rows.take 10⟩ ∧
    (customers11.rows.take 10).length < customers11.rows.length :=
  select_without_limit_returns_first_10 [("customers", customers11)]
    "SELECT * FROM customers" "customers" customers11
    (by decide) (by decide) (by decide) (by decide)

/-!
## pages/SQLQueryEditor.py - query history (show_main_editor)

```python
if execute_button and query.strip():
    with st.spinner("Executing query..."):
        result = executor.execute_query(query)
        show_query_results(result)
        if query not in st.session_state.query_history:
            st.session_state.query_history.append({
                'query': query,
                'timestamp': datetime.now(),
                'success': result['success']
            })
```
`st.session_state.query_history` is a list of dicts, while `query` is a
string: the `in` membership test compares the string against each dict with
`==`, which is always `False` in Python, so the intended dedup never fires
and every execution appends.  `datetime.now()` is an input of the model
(`now`).
-/

/-- One Query History entry: the dict appended by the handler. -/
structure HistoryEntry where
  query : String
  timestamp : Nat
  success : Bool
deriving DecidableEq

/-- Python `query == entry` for a string and a dict: always `False`. -/
def strEqHistoryEntry (_q : String) (_e : HistoryEntry) : Bool := false

/-- `query not in st.session_state.query_history` guard plus the append. -/
def historyAfterExecute (history : List HistoryEntry) (query : String)
    (now : Nat) (succ : Bool) : List HistoryEntry :=
  if history.any (strEqHistoryEntry query) then history
  else history ++ [⟨query, now, succ⟩]

/-- The execute-button handler: when the query text is non-blank, execute
it and record it; otherwise nothing runs and nothing is recorded. -/
def runExecuteClick (db : List (String × Table)) (history : List HistoryEntry)
    (query : String) (now : Nat) : Option QueryResult × List HistoryEntry :=
  if pyStrip query ≠ "" then
    let result := execute_query db query
    (some result, historyAfterExecute history query now result.success)
  else (none, history)

/-- C9.  Every executed query appends exactly one entry at the end of the
history, carrying the query text and the execution's success flag; the
entries already recorded are returned unchanged, in their order (the
string-vs-dict membership test never suppresses the append). -/
theorem history_append_only (db : List (String × Table))
    (history : List HistoryEntry) (query : String) (now : Nat)
    (hq : pyStrip query ≠ "") :
    (runExecuteClick db history query now).2 =
      history ++ [⟨query, now, (execute_query db query).success⟩] := by
  unfold runExecuteClick
  rw [if_pos hq]
  simp [historyAfterExecute, strEqHistoryEntry]

/-- C9 witness: a concrete one-entry history and the (failing) query
`SELECT 1`; the old entry is untouched and one new entry lands at the end
with the execution's success flag. -/
theorem history_append_only_witness :
    (runExecuteClick [] [⟨"SHOW TABLES", 0, true⟩] "SELECT 1" 5).2 =
      [⟨"SHOW TABLES", 0, true⟩, ⟨"SELECT 1", 5, false⟩] := by
  rw [history_append_only [] [⟨"SHOW TABLES", 0, true⟩] "SELECT 1" 5 (by decide)]
  decide

/-!
## pages/07_AggregateQuery.py - `calculate_window_result`, and mutation

```python
def calculate_window_result(df, func, partition, order):
    try:
        if "sale_amount DESC" in order:
            df_sorted = df.sort_values('sale_amount', ascending=False)
        elif "sale_amount ASC" in order:
            df_sorted = df.sort_values('sale_amount', ascending=True)
        else:
            df_sorted = df.sort_values('sale_date')
        if partition != "None":
            if "ROW_NUMBER" in func:
                df_sorted['window_result'] = df_sorted.groupby(partition).cumcount() + 1
            elif "RANK" in func:
                df_sorted['window_result'] = df_sorted.groupby(partition)['sale_amount'].rank(method='min', ascending=False)
            elif "SUM" in func:
                df_sorted['window_result'] = df_sorted.groupby(partition)['sale_amount'].cumsum()
            elif "AVG" in func:
                df_sorted['window_result'] = df_sorted.groupby(partition)['sale_amount'].expanding().mean().values
        else:
            if "ROW_NUMBER" in func:
                df_sorted['window_result'] = range(1, len(df_sorted) + 1)
            elif "RANK" in func:
                df_sorted['window_result'] = df_sorted['sale_amount'].rank(method='min', ascending=False)
            elif "SUM" in func:
                df_sorted['window_result'] = df_sorted['sale_amount'].cumsum()
            elif "AVG" in func:
                df_sorted['window_result'] = df_sorted['sale_amount'].expanding().mean()
            elif "LAG" in func:
                df_sorted['window_result'] = df_sorted['sale_amount'].shift(1)
            elif "LEAD" in func:
                df_sorted['window_result'] = df_sorted['sale_amount'].shift(-1)
        return df_sorted[['sale_id', 'product_category', 'sale_amount', 'sale_date', 'window_result']].round(2)
    except Exception as e:
        st.error(f"Error calculating window result: {str(e)}")
        return pd.DataFrame()
```
The one in-place write of the whole evaluator - the `window_result` column
assignment - targets `df_sorted`, the fresh frame `sort_values` returned,
never the `df` parameter.  Grouping here uses structural cell equality (the
NaN-keyed corner of pandas grouping is exercised by no claim).  The
partitioned AVG branch assigns `.values` of a group-key-sorted flattening
positionally - the source's misalignment is reproduced, including the
length-mismatch `ValueError` when NaN keys were dropped.
-/

/-- Dict-style cell write `row[c] = v` used by the `window_result` column
assignment. -/
def setCell : Row → String → Value → Row
  | [], c, v => [(c, v)]
  | (c0, v0) :: rest, c, v =>
    if c0 = c then (c0, v) :: rest else (c0, v0) :: setCell rest c v

/-- `frame[c] = vals` positional column assignment (callers pass exactly one
value per row). -/
def addColumn (t : Table) (c : String) (vals : List Value) : Table :=
  ⟨if c ∈ t.cols then t.cols else t.cols ++ [c],
   (t.rows.zip vals).map (fun rv => setCell rv.1 c rv.2)⟩

/-- Numeric addition on cells (int stays int, float spreads). -/
def vAdd : Value → Value → Value
  | .int a, .int b => .int (a + b)
  | .int a, .rat b => .rat ((a : Rat) + b)
  | .rat a, .int b => .rat (a + (b : Rat))
  | .rat a, .rat b => .rat (a + b)
  | _, _ => .null

/-- `groupby(partition).cumcount() + 1` positionally: one plus the number of
earlier rows with the same key. -/
def cumCount1Aux : List Value → List Value → List Value
  | _, [] => []
  | seen, k :: rest =>
    .int ((seen.filter (fun s => s = k)).length + 1) :: cumCount1Aux (seen ++ [k]) rest

/-- `rank(method='min', ascending=False)` over (key, value) pairs: one plus
the number of strictly greater values in the same group; NaN ranks NaN. -/
def rankMinDesc (pairs : List (Value × Value)) : List Value :=
  pairs.map (fun p =>
    match p.2 with
    | .null => .null
    | v => .int ((pairs.filter (fun q => q.1 = p.1 ∧ pyGt q.2 v)).length + 1))

/-- Group-wise `cumsum` positionally: NaN stays NaN and is not added. -/
def cumSumAux : List (Value × Value) → List (Value × Value) → List Value
  | _, [] => []
  | seen, (k, v) :: rest =>
    (match v with
     | .null => Value.null
     | v' =>
       (((seen.filter (fun q => q.1 = k)).map Prod.snd).filter
           (fun w => w ≠ Value.null)).foldl vAdd v') ::
      cumSumAux (seen ++ [(k, v)]) rest

/-- Mean of the non-null cells of a prefix (`expanding().mean()` with its
default `min_periods=1`); NaN when none. -/
def expMean (vals : List Value) : Value :=
  let ns := vals.filterMap (fun v =>
    match v with | .int n => some ((n : Rat)) | .rat q => some q | _ => none)
  if ns.length = 0 then .null else .rat (sumNums ns / (ns.length : Rat))

/-- `expanding().mean()` of one series, positionally. -/
def expandingMeansAux : List Value → List Value → List Value
  | _, [] => []
  | seen, v :: rest => expMean (seen ++ [v]) :: expandingMeansAux (seen ++ [v]) rest

/-- `groupby(partition)[...].expanding().mean().values`: groups in ascending
key order (NaN keys dropped), each group's expanding means in row order,
flattened - the array the source assigns positionally. -/
def groupedExpandingVals (pairs : List (Value × Value)) : List Value :=
  let keys := ((pairs.map Prod.fst).filter (fun k => k ≠ Value.null)).eraseDups
  let sorted := isortBy (fun a b => cmpForSort a b ≠ .gt) keys
  sorted.flatMap (fun k =>
    expandingMeansAux [] ((pairs.filter (fun q => q.1 = k)).map Prod.snd))

/-- `shift(1)`: previous row's value, NaN first. -/
def shiftLag : List Value → List Value
  | [] => []
  | vals => .null :: vals.dropLast

/-- `shift(-1)`: next row's value, NaN last. -/
def shiftLead : List Value → List Value
  | [] => []
  | vals => vals.drop 1 ++ [.null]

/-- `.round(2)` over a whole frame. -/
def round2Table (t : Table) : Table :=
  ⟨t.cols, t.rows.map (fun r => r.map (fun cv => (cv.1, roundVal2 cv.2)))⟩

/-- `calculate_window_result` in state-passing form: the pair is (the
caller's `df` object after the call, the returned frame).  The first
component is the parameter itself because the body only rebinds fresh
frames (`sort_values` output) and writes columns on those - a faithful
statement-by-statement translation of the source quoted above. -/
def calculate_window_resultS (df : Table) (func partition order : String) :
    Table × Table :=
  let body : Except PyErr Table := do
    let df_sorted ←
      if containsSub order "sale_amount DESC" then sortValues df "sale_amount" false
      else if containsSub order "sale_amount ASC" then sortValues df "sale_amount" true
      else sortValues df "sale_date" true
    let df_sorted ←
      if partition ≠ "None" then
        if containsSub func "ROW_NUMBER" then do
          let pk ← df_sorted.colValues partition
          pure (addColumn df_sorted "window_result" (cumCount1Aux [] pk))
        else if containsSub func "RANK" then do
          let pk ← df_sorted.colValues partition
          let sv ← df_sorted.colValues "sale_amount"
          pure (addColumn df_sorted "window_result" (rankMinDesc (pk.zip sv)))
        else if containsSub func "SUM" then do
          let pk ← df_sorted.colValues partition
          let sv ← df_sorted.colValues "sale_amount"
          pure (addColumn df_sorted "window_result" (cumSumAux [] (pk.zip sv)))
        else if containsSub func "AVG" then do
          let pk ← df_sorted.colValues partition
          let sv ← df_sorted.colValues "sale_amount"
          let vals := groupedExpandingVals (pk.zip sv)
          if vals.length = df_sorted.rows.length then
            pure (addColumn df_sorted "window_result" vals)
          else
            .error (.valueError "Length of values does not match length of index")
        else pure df_sorted
      else
        if containsSub func "ROW_NUMBER" then
          pure (addColumn df_sorted "window_result"
            ((List.range df_sorted.rows.length).map (fun i => .int ((i : Int) + 1))))
        else if containsSub func "RANK" then do
          let sv ← df_sorted.colValues "sale_amount"
          pure (addColumn df_sorted "window_result"
            (rankMinDesc (sv.map (fun v => (Value.int 0, v)))))
        else if containsSub func "SUM" then do
          let sv ← df_sorted.colValues "sale_amount"
          pure (addColumn df_sorted "window_result"
            (cumSumAux [] (sv.map (fun v => (Value.int 0, v)))))
        else if containsSub func "AVG" then do
          let sv ← df_sorted.colValues "sale_amount"
          pure (addColumn df_sorted "window_result" (expandingMeansAux [] sv))
        else if containsSub func "LAG" then do
          let sv ← df_sorted.colValues "sale_amount"
          pure (addColumn df_sorted "window_result" (shiftLag sv))
        else if containsSub func "LEAD" then do
          let sv ← df_sorted.colValues "sale_amount"
          pure (addColumn df_sorted "window_result" (shiftLead sv))
        else pure df_sorted
    let proj ← selectCols df_sorted
      ["sale_id", "product_category", "sale_amount", "sale_date", "window_result"]
    pure (round2Table proj)
  (df, match body with | .ok t => t | .error _ => Table.empty)

/-- `calculate_window_result` proper: the returned frame. -/
def calculate_window_result (df : Table) (func partition order : String) : Table :=
  (calculate_window_resultS df func partition order).2

/-- `create_query_result` in state-passing form: (the caller's `data` object
after the call, the returned value).  Every frame the source body produces
comes from `copy()`, boolean indexing, `sort_values` or `iloc` - each a
fresh frame - and no in-place operation is applied to the parameter, so the
post-state is the parameter itself. -/
def create_query_resultS (data : Table) (query_type : String) (kw : Kwargs) :
    Table × Except PyErr Table :=
  (data, create_query_result data query_type kw)

/-- `QueryExecutor.execute_select` in state-passing form over the executor's
database: the body reads `self.database[table_name].copy()` and never
writes the dict or its frames, so the post-state is the database itself. -/
def execute_selectS (db : List (String × Table)) (query : String) :
    List (String × Table) × QueryResult :=
  (db, execute_select db query)

/-- C7.  Evaluation never mutates its input: for each embedded evaluator the
input table (or table dict) after the call is the input itself, and the
value returned is the separately-computed result - a new table, not a view
that writes back. -/
theorem evaluation_never_mutates_input :
    (∀ (data : Table) (query_type : String) (kw : Kwargs),
        (create_query_resultS data query_type kw).1 = data ∧
        (create_query_resultS data query_type kw).2 =
          create_query_result data query_type kw) ∧
    (∀ (db : List (String × Table)) (query : String),
        (execute_selectS db query).1 = db ∧
        (execute_selectS db query).2 = execute_select db query) ∧
    (∀ (df : Table) (func partition order : String),
        (calculate_window_resultS df func partition order).1 = df ∧
        (calculate_window_resultS df func partition order).2 =
          calculate_window_result df func partition order) :=
  ⟨fun _ _ _ => ⟨rfl, rfl⟩, fun _ _ => ⟨rfl, rfl⟩, fun _ _ _ _ => ⟨rfl, rfl⟩⟩

end SQLHandbook
